import Mathlib

/-!
Verification development for the device-allocation and test-data-isolation
core of a WebdriverIO mobile automation framework.

The embedding covers, faithfully translated from the JavaScript source:

* `TestData` — the per-test data isolation engine
  (`src/utils/testDataManager.js`, class `TestDataManager`: the methods
  `initializeTestData`, `getTestData`, `updateTestData` and the private
  helper `_isolateData`).  JavaScript object aliasing matters here (the
  isolation transform writes through a possibly shared nested `user`
  object), so nested user objects live in an explicit heap of addresses
  and a record holds an address, exactly as a JS object holds a reference.
* `Fixture` — the fixture store (`TestDataManager.loadTestData`), with the
  file system abstracted as a partial map from data type to parsed JSON
  (absence covers both a missing file and a JSON parse failure, which the
  source treats identically through its catch-all).
* `Pool` — the local device pool registry
  (`src/utils/deviceFarmManager.js`, class `DeviceManager`).
* `Broker` — the remote device farm adapter
  (`src/utils/deviceFarmManager.js`, class `DeviceFarmManager`), with the
  network abstracted as a response oracle and the number of issued
  allocation requests tracked explicitly.

Clock and randomness (`Date.now()`, `Math.random()`): the source only uses
them to mint context ids and timestamps, so those are taken as parameters.
String splitting follows JavaScript `String.prototype.split` semantics and
is implemented over character lists so that all definitions evaluate inside
the kernel.
-/

/-! ## JavaScript-style helpers -/

/-- Lookup in an insertion-ordered association list (JS `Map.get` /
object property read): first binding wins, `none` models `undefined`. -/
def lookupL {κ α : Type} [DecidableEq κ] : List (κ × α) → κ → Option α
  | [], _ => none
  | (k', v) :: rest, k => if k' = k then some v else lookupL rest k

/-- JS `Map.set` / object property write: replace the first binding in
place (keeping its position, as JS maps and objects do), or append. -/
def mapSet {κ α : Type} [DecidableEq κ] : List (κ × α) → κ → α → List (κ × α)
  | [], k, v => [(k, v)]
  | (k', v') :: rest, k, v =>
    if k' = k then (k, v) :: rest else (k', v') :: mapSet rest k v

/-- JS `Map.delete`: remove the binding for a key. -/
def mapDelete {κ α : Type} [DecidableEq κ] (m : List (κ × α)) (k : κ) : List (κ × α) :=
  m.filter (fun p => p.1 ≠ k)

/-- JS string truthiness: `undefined` and the empty string are falsy. -/
def truthyS : Option String → Bool
  | none => false
  | some s => !s.isEmpty

/-- JS `a || b` on strings: keep `a` unless it is falsy (empty). -/
def jsOrStr (a b : String) : String :=
  if a.isEmpty then b else a

/-- Splitting loop over character lists, with fuel for structural
recursion (the fuel is always sufficient, see `jsSplit`). -/
def splitGo (sep : List Char) : Nat → List Char → List Char → List (List Char)
  | 0, acc, _ => [acc.reverse]
  | _ + 1, acc, [] => [acc.reverse]
  | fuel + 1, acc, c :: cs =>
    if sep.isPrefixOf (c :: cs) then
      acc.reverse :: splitGo sep fuel [] (List.drop sep.length (c :: cs))
    else
      splitGo sep fuel (c :: acc) cs

/-- JS `s.split(sep)` for a non-empty separator: `"a@b".split("@")`
gives `["a","b"]`, `"".split("@")` gives `[""]`, and a string without
the separator yields a one-element list. -/
def jsSplit (s sep : String) : List String :=
  (splitGo sep.data (s.data.length + 1) [] s.data).map (fun cs => String.mk cs)

/-- Numeric value of a list of decimal digit characters. -/
def digitsVal (cs : List Char) : Nat :=
  cs.foldl (fun n c => n * 10 + (c.toNat - 48)) 0

/-- JS `parseInt` restricted to the shapes the source feeds it (a decimal
port string): parse the leading run of digits, `none` models `NaN`. -/
def jsParseInt (s : String) : Option Nat :=
  let digits := s.data.takeWhile Char.isDigit
  if digits.isEmpty then none else some (digitsVal digits)

namespace TestData

/-! ## Isolation engine (`TestDataManager`) -/

/-- The nested `user` object of a base-data record.  In JS this is a
heap object reached through a reference; fields may be absent. -/
structure UserObj where
  email : Option String
  username : Option String
deriving DecidableEq, Repr

/-- A top-level test-data record.  `user` holds the heap address of the
nested user object when the field is present (a JS reference); other
own fields are opaque scalar payload; `executionContext` models the
`_executionContext` tag added by the isolation transform. -/
structure RecordObj where
  user : Option Nat
  fields : List (String × String)
  executionContext : Option String
deriving DecidableEq, Repr

/-- The record `\x7b\x7d` (`new Object`): no user, no payload, no tag. -/
def emptyRecord : RecordObj :=
  { user := none, fields := [], executionContext := none }

/-- State of the `TestDataManager` singleton: the heap of nested user
objects, the `testData` map and the `testExecutionContexts` map
(contexts reduced to the minted context id, the only part read back). -/
structure TDMState where
  heap : List (Nat × UserObj)
  testData : List (String × RecordObj)
  testExecutionContexts : List (String × String)
deriving DecidableEq, Repr

/-- Transform an email as `_isolateData` does:
`const [name, domain] = email.split('@')` followed by the template
`name + '+' + contextId + '@' + domain` (an absent destructured `domain`
renders as the string `undefined` in the template). -/
def isolateEmail (email contextId : String) : String :=
  let parts := jsSplit email "@"
  let name := (parts[0]?).getD ""
  let domain :=
    match parts[1]? with
    | some d => d
    | none => "undefined"
  name ++ "+" ++ contextId ++ "@" ++ domain

/-- `TestDataManager._isolateData(data, contextId)`.  The source does
`const isolatedData = ...data` — a top-level shallow copy: the copied
record holds the same `user` reference as `data`, and the identity
rewrites assign through that reference, i.e. update the heap. -/
def isolateData (heap : List (Nat × UserObj)) (data : RecordObj)
    (contextId : String) : List (Nat × UserObj) × RecordObj :=
  let isolatedData := data
  let heap1 :=
    match isolatedData.user with
    | none => heap
    | some addr =>
      match lookupL heap addr with
      | none => heap
      | some u =>
        let u1 :=
          if truthyS u.email then
            { u with email := some (isolateEmail ((u.email).getD "") contextId) }
          else u
        let u2 :=
          if truthyS u1.username then
            { u1 with username := some (((u1.username).getD "") ++ "_" ++ contextId) }
          else u1
        mapSet heap addr u2
  (heap1, { isolatedData with executionContext := some contextId })

/-- `TestDataManager.initializeTestData(testId, baseData)`.  The minted
execution context id (`exec-` + clock + random in the source) is passed
in as `contextId`.  Returns the updated state and the stored record. -/
def initializeTestData (st : TDMState) (testId : String) (baseData : RecordObj)
    (contextId : String) : TDMState × RecordObj :=
  let st1 := { st with
    testExecutionContexts := mapSet st.testExecutionContexts testId contextId }
  let r := isolateData st1.heap baseData contextId
  ({ st1 with heap := r.1, testData := mapSet st1.testData testId r.2 }, r.2)

/-- `TestDataManager.getTestData(testId)`: the stored record, or an
empty record when none exists. -/
def getTestData (st : TDMState) (testId : String) : RecordObj :=
  (lookupL st.testData testId).getD emptyRecord

/-- JS object spread of two field lists (`...a` then `...b`): fields of
`b` override fields of `a` in place, new fields of `b` are appended. -/
def spreadFields (a b : List (String × String)) : List (String × String) :=
  b.foldl (fun acc kv => mapSet acc kv.1 kv.2) a

/-- JS spread of two records: per own field, the right record wins when
the field is present there. -/
def spreadRecord (a b : RecordObj) : RecordObj :=
  { user :=
      match b.user with
      | some u => some u
      | none => a.user,
    fields := spreadFields a.fields b.fields,
    executionContext :=
      match b.executionContext with
      | some c => some c
      | none => a.executionContext }

/-- `TestDataManager.updateTestData(testId, newData)`: merge `newData`
over the current record, store the merge under `testId`, return it. -/
def updateTestData (st : TDMState) (testId : String) (newData : RecordObj) :
    TDMState × RecordObj :=
  let currentData := getTestData st testId
  let updatedData := spreadRecord currentData newData
  ({ st with testData := mapSet st.testData testId updatedData }, updatedData)

/-- `TestDataManager.cleanupTestData(testId)`. -/
def cleanupTestData (st : TDMState) (testId : String) : TDMState :=
  { st with
    testData := mapDelete st.testData testId,
    testExecutionContexts := mapDelete st.testExecutionContexts testId }

/-- Read the email of the nested user object of a record through the
heap — what a test observes as its own identity field. -/
def readUserEmail (st : TDMState) (r : RecordObj) : Option String :=
  match r.user with
  | none => none
  | some addr => (lookupL st.heap addr).bind (fun u => u.email)

/-- Read the username of the nested user object through the heap. -/
def readUserName (st : TDMState) (r : RecordObj) : Option String :=
  match r.user with
  | none => none
  | some addr => (lookupL st.heap addr).bind (fun u => u.username)

/-! Concrete scenario for the isolation claims: one base record whose
nested user object sits at heap address 0. -/

/-- Base fixture user, as in `testData/users.json` style data. -/
def baseUser : UserObj :=
  { email := some "user@example.com", username := some "user1" }

/-- Base record handed to `initializeTestData` by two different tests. -/
def baseRecord : RecordObj :=
  { user := some 0, fields := [], executionContext := none }

/-- Fresh manager state holding just the base user object on the heap. -/
def st0 : TDMState :=
  { heap := [(0, baseUser)], testData := [], testExecutionContexts := [] }

/-- First initialization: test `id1`, context id `c1`. -/
def run1 : TDMState × RecordObj :=
  initializeTestData st0 "id1" baseRecord "c1"

/-- Second initialization from the same base: test `id2`, context `c2`. -/
def run2 : TDMState × RecordObj :=
  initializeTestData run1.1 "id2" baseRecord "c2"

/-- A fresh manager state with nothing initialized. -/
def tdEmpty : TDMState :=
  { heap := [], testData := [], testExecutionContexts := [] }

/-- Payload handed to `updateTestData` for a test id that was never
initialized. -/
def c7NewData : RecordObj :=
  { user := none, fields := [("lastOrder", "42")], executionContext := none }

end TestData

namespace Fixture

/-! ## Fixture store (`TestDataManager.loadTestData`) -/

/-- Parsed JSON values, as far as `loadTestData` inspects them. -/
inductive JsonV where
  | null
  | boolV (b : Bool)
  | num (n : Int)
  | str (s : String)
  | arr (xs : List JsonV)
  | obj (fields : List (String × JsonV))

/-- JS falsiness of a JSON value (`null`, `false`, `0`, `""`). -/
def jsFalsy : JsonV → Bool
  | JsonV.null => true
  | JsonV.boolV b => !b
  | JsonV.num n => n = 0
  | JsonV.str s => s.isEmpty
  | JsonV.arr _ => false
  | JsonV.obj _ => false

/-- JS `v || d`: the default replaces an absent or falsy value. -/
def jsOr (v : Option JsonV) (d : JsonV) : JsonV :=
  match v with
  | none => d
  | some x => if jsFalsy x then d else x

/-- JS property read `v[key]` for a string key: object lookup,
`undefined` on everything else. -/
def jsGetField : JsonV → String → Option JsonV
  | JsonV.obj fs, k => lookupL fs k
  | _, _ => none

/-- JS `v.length`: defined on arrays and strings, `undefined` elsewhere. -/
def jsLen : JsonV → Option Nat
  | JsonV.arr xs => some xs.length
  | JsonV.str s => some s.data.length
  | _ => none

/-- JS `v.length > index`: comparison against `undefined` is false. -/
def jsLenGt (v : JsonV) (index : Nat) : Bool :=
  match jsLen v with
  | none => false
  | some n => index < n

/-- JS element read `v[index]` for a numeric index: array element, a
one-character string for strings, `undefined` elsewhere. -/
def jsIndex : JsonV → Nat → Option JsonV
  | JsonV.arr xs, i => xs[i]?
  | JsonV.str s, i => (s.data[i]?).map (fun c => JsonV.str (String.mk [c]))
  | _, _ => none

/-- Truthiness of the `category` argument: `null` (absent) and the empty
string are falsy, exactly the two places the source tests `category`. -/
def catTruthy : Option String → Bool
  | none => false
  | some s => !s.isEmpty

/-- The cache key `dataType + ':' + (category || 'all')`. -/
def cacheKey (dataType : String) (category : Option String) : String :=
  dataType ++ ":" ++ (if catTruthy category then (category.getD "") else "all")

/-- The file system seen by `loadTestData`: data type name to parsed
top-level JSON object of `testData/type.json`.  `none` covers both a
missing file and a file whose parse throws — the source returns the
same degraded result for both (early return / catch-all). -/
def FileSystem : Type := String → Option (List (String × JsonV))

/-- The `dataCache` of the manager. -/
structure FState where
  dataCache : List (String × JsonV)

/-- Fresh fixture store (empty cache). -/
def fs0 : FState := { dataCache := [] }

/-- The tail of `loadTestData` after the cache is populated: the
category selection `data[category] || []`, the bounds test
`categoryData.length > index` and the fallback `categoryData[0] || \x7b\x7d`. -/
def serveData (data : JsonV) (category : Option String) (index : Nat) : Option JsonV :=
  if catTruthy category then
    let categoryData := jsOr (jsGetField data ((category.getD ""))) (JsonV.arr [])
    if jsLenGt categoryData index then
      jsIndex categoryData index
    else
      some (jsOr (jsIndex categoryData 0) (JsonV.obj []))
  else
    some data

/-- `TestDataManager.loadTestData(dataType, category, index)`.  Returns
the updated cache state and the produced value (`none` would be JS
`undefined`; the degraded results are the empty object or empty array,
per the category flag). -/
def loadTestData (fsys : FileSystem) (st : FState) (dataType : String)
    (category : Option String) (index : Nat) : FState × Option JsonV :=
  let key := cacheKey dataType category
  match lookupL st.dataCache key with
  | some data => (st, serveData data category index)
  | none =>
    match fsys dataType with
    | none =>
      (st, some (if catTruthy category then JsonV.obj [] else JsonV.arr []))
    | some fileData =>
      let data := jsOr (lookupL fileData dataType) (JsonV.obj [])
      let st1 : FState := { dataCache := mapSet st.dataCache key data }
      (st1, serveData data category index)

/-! Concrete fixture source for the load claims: a `users.json` whose
`users` object holds a `valid` category with two records. -/

/-- First record of the `valid` category. -/
def rec1 : JsonV :=
  JsonV.obj [("username", JsonV.str "testuser1"), ("password", JsonV.str "p1")]

/-- Second record of the `valid` category. -/
def rec2 : JsonV :=
  JsonV.obj [("username", JsonV.str "testuser2"), ("password", JsonV.str "p2")]

/-- File system holding exactly one source, `users`, shaped as the
fixture interface requires; everything else is absent. -/
def usersFS : FileSystem := fun ty =>
  if ty = "users" then
    some [("users", JsonV.obj [("valid", JsonV.arr [rec1, rec2])])]
  else
    none

end Fixture

namespace Pool

/-! ## Local device pool registry (`DeviceManager`) -/

/-- The two device pools of the registry (`this.devices`). -/
inductive Platform where
  | android
  | ios
deriving DecidableEq, Repr

/-- A pool device: `id` and `udid` may each be absent (JS `undefined`),
`props` is the opaque remainder of the device configuration carried
along by object spreads, `inUse` is the allocation flag. -/
structure Device where
  id : Option String
  udid : Option String
  props : List (String × String)
  inUse : Bool
deriving DecidableEq, Repr

/-- A lock table entry (`this.locks` value): platform, the device key
recorded at allocation time, and the allocation timestamp. -/
structure Lock where
  platform : Platform
  deviceId : Option String
  timestamp : String
deriving DecidableEq, Repr

/-- Registry state: both pools, the in-memory lock map, and the parsed
content of the durable `device-locks.json` (`none` when the file is
absent or unparseable — both take the same code path). -/
structure DMState where
  android : List Device
  ios : List Device
  locks : List (String × Lock)
  lockFile : Option (List (String × Lock))
deriving DecidableEq, Repr

/-- The device list for a platform (`this.devices[platform]`). -/
def DMState.pool (st : DMState) : Platform → List Device
  | Platform.android => st.android
  | Platform.ios => st.ios

/-- Replace the device list for a platform. -/
def DMState.setPool (st : DMState) : Platform → List Device → DMState
  | Platform.android, ds => { st with android := ds }
  | Platform.ios, ds => { st with ios := ds }

/-- A registry with empty pools, no locks and no lock file. -/
def dmEmpty : DMState :=
  { android := [], ios := [], locks := [], lockFile := none }

/-- The key recorded in a lock: `device.id || device.udid`. -/
def deviceKey (d : Device) : Option String :=
  match d.id with
  | some s => if s.isEmpty then d.udid else some s
  | none => d.udid

/-- The match predicate of `releaseDevice` and `_restoreLocks`:
`d.id === deviceId || d.udid === deviceId` (JS strict equality, under
which two `undefined` sides are equal). -/
def devMatches (d : Device) (key : Option String) : Bool :=
  d.id == key || d.udid == key

/-- `_persistLocks`: rewrite the durable file with the full lock map
(the source serializes the map entries in order; a write failure is
logged and swallowed — the success path is modelled). -/
def persistLocks (st : DMState) : DMState :=
  { st with lockFile := some st.locks }

/-- Mark the first free device of a pool in use and return it; `none`
when every device is busy.  This is `filter(not inUse)` followed by
taking element 0 and assigning `device.inUse = true` in place. -/
def markFirstFree : List Device → List Device × Option Device
  | [] => ([], none)
  | d :: ds =>
    if d.inUse then
      let r := markFirstFree ds
      (d :: r.1, r.2)
    else
      ({ d with inUse := true } :: ds, some { d with inUse := true })

/-- `DeviceManager.allocateDevice(platform, testId)`: pick the first
free device of the platform in registration order, mark it in use,
record the lock under `testId`, persist; `none` (the source returns
`null` after a warning) when no device is free.  The timestamp is a
parameter (`new Date().toISOString()` in the source). -/
def allocateDevice (st : DMState) (platform : Platform) (testId ts : String) :
    DMState × Option Device :=
  let r := markFirstFree (st.pool platform)
  match r.2 with
  | none => (st, none)
  | some device =>
    let st1 := st.setPool platform r.1
    let st2 := { st1 with
      locks := mapSet st1.locks testId
        { platform := platform, deviceId := deviceKey device, timestamp := ts } }
    (persistLocks st2, some device)

/-- Clear `inUse` on the first device matching the lock key; the flag
reports whether `find` produced a device. -/
def releaseFirstMatch (key : Option String) : List Device → List Device × Bool
  | [] => ([], false)
  | d :: ds =>
    if devMatches d key then
      ({ d with inUse := false } :: ds, true)
    else
      let r := releaseFirstMatch key ds
      (d :: r.1, r.2)

/-- `DeviceManager.releaseDevice(testId)`: no lock — warn and return;
lock whose device is found — clear `inUse`, delete the lock, persist;
lock whose device is not in the catalog — nothing happens at all. -/
def releaseDevice (st : DMState) (testId : String) : DMState :=
  match lookupL st.locks testId with
  | none => st
  | some lock =>
    let r := releaseFirstMatch lock.deviceId (st.pool lock.platform)
    if r.2 then
      let st1 := st.setPool lock.platform r.1
      let st2 := { st1 with locks := mapDelete st1.locks testId }
      persistLocks st2
    else
      st

/-- Set `inUse` on the first device matching the lock key (the restore
path does not test the flag before setting it). -/
def restoreFirstMatch (key : Option String) : List Device → List Device
  | [] => []
  | d :: ds =>
    if devMatches d key then
      { d with inUse := true } :: ds
    else
      d :: restoreFirstMatch key ds

/-- One iteration of the `_restoreLocks` loop: put the persisted entry
into the lock map, then mark the corresponding device (when found). -/
def restoreOne (st : DMState) (entry : String × Lock) : DMState :=
  let st1 := { st with locks := mapSet st.locks entry.1 entry.2 }
  st1.setPool entry.2.platform
    (restoreFirstMatch entry.2.deviceId (st1.pool entry.2.platform))

/-- `DeviceManager._restoreLocks`: absent or unparseable file — no
change; otherwise clear the lock map and replay every persisted entry.
Unknown-device entries still enter the lock map (the device search
simply finds nothing).  No persist happens here. -/
def restoreLocks (st : DMState) : DMState :=
  match st.lockFile with
  | none => st
  | some entries => entries.foldl restoreOne { st with locks := [] }

/-- `DeviceManager.initializeDevicePool(androidDevices, iosDevices)`:
rebuild both catalogs with `inUse` reset (`...device, inUse: false`),
then reconcile with the persisted lock table. -/
def initializeDevicePool (st : DMState) (androidDevices iosDevices : List Device) :
    DMState :=
  let st1 := { st with
    android := androidDevices.map (fun d => { d with inUse := false }),
    ios := iosDevices.map (fun d => { d with inUse := false }) }
  restoreLocks st1

/-- The free devices of one platform, as `getAvailableDevices` filters
them. -/
def availOf (st : DMState) (p : Platform) : List Device :=
  (st.pool p).filter (fun d => !d.inUse)

/-- `DeviceManager.getAvailableDevices()`: free devices per platform. -/
def getAvailableDevices (st : DMState) : List Device × List Device :=
  (availOf st Platform.android, availOf st Platform.ios)

/-- The catalog argument for a platform, as passed to
`initializeDevicePool`. -/
def catalogOf (androidDevices iosDevices : List Device) : Platform → List Device
  | Platform.android => androidDevices
  | Platform.ios => iosDevices

/-- Number of devices of a list currently marked in use. -/
def countInUse (ds : List Device) : Nat :=
  (ds.filter (fun d => d.inUse)).length

/-! Concrete pool scenario shared by several claims: two android
devices `A` and `B`, registered in that order. -/

/-- Android device `A`. -/
def devA : Device :=
  { id := some "A", udid := none, props := [], inUse := false }

/-- Android device `B`. -/
def devB : Device :=
  { id := some "B", udid := none, props := [], inUse := false }

/-- Device `A` as returned by a successful allocation. -/
def devABusy : Device := { devA with inUse := true }

/-- Device `B` as returned by a successful allocation. -/
def devBBusy : Device := { devB with inUse := true }

/-- Pool initialized with `[A, B]` for android, no persisted locks. -/
def poolAB : DMState :=
  initializeDevicePool dmEmpty [devA, devB] []

/-- Scenario step 1: allocate for test `t1`. -/
def c3s1 : DMState × Option Device := allocateDevice poolAB Platform.android "t1" "ts1"

/-- Scenario step 2: allocate for test `t2`. -/
def c3s2 : DMState × Option Device := allocateDevice c3s1.1 Platform.android "t2" "ts2"

/-- Scenario step 3: allocate for test `t3` with the pool exhausted. -/
def c3s3 : DMState × Option Device := allocateDevice c3s2.1 Platform.android "t3" "ts3"

/-- Scenario step 4: release test `t1`. -/
def c3s4 : DMState := releaseDevice c3s3.1 "t1"

/-- Scenario step 5: retry the allocation for test `t3`. -/
def c3s5 : DMState × Option Device := allocateDevice c3s4 Platform.android "t3" "ts5"

/-- Re-allocation scenario for the idempotent re-entry claim: the same
test id `t1` allocates a second time on the `[A, B]` pool. -/
def c2Second : DMState × Option Device := allocateDevice c3s1.1 Platform.android "t1" "ts2"

/-- Lock entry recorded for device `A` in a previous run. -/
def c4LockA : Lock :=
  { platform := Platform.android, deviceId := some "A", timestamp := "old" }

/-- Persisted lock entry whose device id `Z` matches nothing in the new
catalog. -/
def c4LockZ : Lock :=
  { platform := Platform.android, deviceId := some "Z", timestamp := "old" }

/-- Registry state carrying a persisted lock table with one known-device
entry and one unknown-device entry, before pool initialization. -/
def c4Pre : DMState :=
  { android := [], ios := [], locks := [],
    lockFile := some [("t1", c4LockA), ("t2", c4LockZ)] }

/-- The registry after `initializeDevicePool([A], [])` on top of the
persisted table above. -/
def c4Post : DMState := initializeDevicePool c4Pre [devA] []

/-- A registry whose only lock entry references a device id absent from
the catalog (stale entry from a previous pool), for the release claims. -/
def staleSt : DMState :=
  { android := [devA], ios := [], locks := [("t9", c4LockZ)],
    lockFile := some [("t9", c4LockZ)] }

/-- Registry with a persisted single-entry lock table for device `A`,
before pool initialization — the crash-recovery witness input. -/
def c4WPre : DMState :=
  { android := [], ios := [], locks := [], lockFile := some [("t1", c4LockA)] }

end Pool

namespace Broker

/-! ## Remote device farm adapter (`DeviceFarmManager`) -/

/-- The device object of a broker response (`response.data.device`). -/
structure BDevice where
  id : String
  capabilities : List (String × String)
deriving DecidableEq, Repr

/-- A cached allocation, as built by `requestDevice`. -/
structure Allocation where
  device : BDevice
  sessionId : String
  endpoint : String
  allocated : Bool
  timestamp : String
deriving DecidableEq, Repr

/-- Outcome of the `POST /device` round trip.  `ok` is a 200 response
carrying a device; `fail` covers network errors, non-200 statuses and
responses without a device — all of which end in the catch-all that
returns `null`. -/
inductive NetResult where
  | ok (device : BDevice) (sessionId : String) (endpoint : String)
  | fail
deriving DecidableEq, Repr

/-- The network as seen by `requestDevice`: platform, capabilities and
test id determine the response. -/
def Network : Type := String → List (String × String) → String → NetResult

/-- Broker state: the allocation cache keyed by test id. -/
structure DFMState where
  allocations : List (String × Allocation)
deriving DecidableEq, Repr

/-- A broker with an empty allocation cache. -/
def dfmEmpty : DFMState := { allocations := [] }

/-- `DeviceFarmManager.requestDevice(platform, capabilities, testId)`.
The third component counts the `POST /device` requests issued by this
call (0 on a cache hit, 1 otherwise).  The timestamp parameter stands
for `new Date().toISOString()`. -/
def requestDevice (net : Network) (st : DFMState) (platform : String)
    (capabilities : List (String × String)) (testId ts : String) :
    DFMState × Option Allocation × Nat :=
  match lookupL st.allocations testId with
  | some a => (st, some a, 0)
  | none =>
    match net platform capabilities testId with
    | NetResult.ok device sessionId endpoint =>
      let allocation : Allocation :=
        { device := device, sessionId := sessionId, endpoint := endpoint,
          allocated := true, timestamp := ts }
      ({ allocations := mapSet st.allocations testId allocation },
        some allocation, 1)
    | NetResult.fail => (st, none, 1)

/-- The remote options object computed by `getRemoteOptions`. -/
structure RemoteOptions where
  protocol : String
  hostname : String
  port : Option Nat
  path : String
  capabilities : List (String × String)
deriving DecidableEq, Repr

/-- Outcome of `getRemoteOptions`: the options object, the explicit
`No device allocation found` throw, or the `TypeError` raised when the
endpoint lacks the protocol separator (destructuring leaves `hostname`
undefined and `hostname.split` throws). -/
inductive GROResult where
  | ok (opts : RemoteOptions)
  | errNoAllocation
  | errTypeError
deriving DecidableEq, Repr

/-- `DeviceFarmManager.getRemoteOptions(testId)`: split the cached
endpoint on `://`, split the remainder on `:`, apply the defaults
`http` / `localhost` / `4723` to falsy components, parse the port. -/
def getRemoteOptions (st : DFMState) (testId : String) : GROResult :=
  match lookupL st.allocations testId with
  | none => GROResult.errNoAllocation
  | some a =>
    let parts := jsSplit a.endpoint "://"
    let protocol := (parts[0]?).getD ""
    match parts[1]? with
    | none => GROResult.errTypeError
    | some hostname =>
      let hp := jsSplit hostname ":"
      let host := (hp[0]?).getD ""
      let portStr :=
        match hp[1]? with
        | none => "4723"
        | some p => if p.isEmpty then "4723" else p
      GROResult.ok
        { protocol := jsOrStr protocol "http",
          hostname := jsOrStr host "localhost",
          port := jsParseInt portStr,
          path := "/wd/hub",
          capabilities := mapSet a.device.capabilities "appium:sessionId" a.sessionId }

/-- A broker device used in the concrete broker scenarios. -/
def bDev : BDevice := { id := "emu-1", capabilities := [("platformName", "Android")] }

/-- An allocation for `bDev` whose endpoint lacks the protocol
separator — exactly what a farm answering with `host:port` produces. -/
def noSepAllocation : Allocation :=
  { device := bDev, sessionId := "s1", endpoint := "localhost:4723",
    allocated := true, timestamp := "ts" }

/-- Broker state caching `noSepAllocation` for test `t1`. -/
def noSepState : DFMState := { allocations := [("t1", noSepAllocation)] }

/-- Allocation whose endpoint carries protocol, host and port. -/
def fullAllocation : Allocation :=
  { device := bDev, sessionId := "s1", endpoint := "myproto://myhost:8080",
    allocated := true, timestamp := "ts" }

/-- Allocation whose endpoint carries protocol and host, no port. -/
def noPortAllocation : Allocation :=
  { device := bDev, sessionId := "s1", endpoint := "http://myhost",
    allocated := true, timestamp := "ts" }

/-- Allocation whose endpoint is just the bare separator, every
component absent. -/
def bareAllocation : Allocation :=
  { device := bDev, sessionId := "s1", endpoint := "://",
    allocated := true, timestamp := "ts" }

/-- Broker state caching the three well-separated endpoints above. -/
def endpointsState : DFMState :=
  { allocations :=
      [("tf", fullAllocation), ("tn", noPortAllocation), ("tb", bareAllocation)] }

/-- Another separator-free endpoint, a bare IP address. -/
def bareIpAllocation : Allocation :=
  { device := bDev, sessionId := "s2", endpoint := "10.0.0.5",
    allocated := true, timestamp := "ts" }

/-- Broker state caching `bareIpAllocation` for test `t2`. -/
def bareIpState : DFMState := { allocations := [("t2", bareIpAllocation)] }

/-- A network that always grants the same device — the happy path of
the farm service. -/
def okNet : Network := fun _ _ _ =>
  NetResult.ok bDev "sess-1" "http://localhost:4723"

end Broker

/-! ## General lemmas about the JS-style maps -/

/-- Writing a key makes it readable: JS `m.set(k, v).get(k) === v`. -/
theorem lookupL_mapSet_self {κ α : Type} [DecidableEq κ]
    (m : List (κ × α)) (k : κ) (v : α) : lookupL (mapSet m k v) k = some v := by
  induction m with
  | nil => simp [mapSet, lookupL]
  | cons p rest ih =>
    by_cases h : p.1 = k
    · simp [mapSet, h, lookupL]
    · simp [mapSet, h, lookupL, ih]

/-- Deleting a key removes it: JS `m.delete(k); m.get(k) === undefined`. -/
theorem lookupL_mapDelete_self {κ α : Type} [DecidableEq κ]
    (m : List (κ × α)) (k : κ) : lookupL (mapDelete m k) k = none := by
  induction m with
  | nil => rfl
  | cons p rest ih =>
    by_cases h : p.1 = k
    · simpa [mapDelete, h] using ih
    · simpa [mapDelete, h, lookupL] using ih

/-- Overwriting an existing key does not grow the map. -/
theorem mapSet_length_of_lookup {κ α : Type} [DecidableEq κ]
    (m : List (κ × α)) (k : κ) (v w : α) (h : lookupL m k = some v) :
    (mapSet m k w).length = m.length := by
  induction m with
  | nil => simp [lookupL] at h
  | cons p rest ih =>
    by_cases hk : p.1 = k
    · simp [mapSet, hk]
    · simp [lookupL, hk] at h
      simp [mapSet, hk, ih h]

/-- Setting an absent key appends the binding. -/
theorem mapSet_eq_append_of_not_mem {κ α : Type} [DecidableEq κ]
    (m : List (κ × α)) (k : κ) (v : α) (h : k ∉ m.map Prod.fst) :
    mapSet m k v = m ++ [(k, v)] := by
  induction m with
  | nil => rfl
  | cons p rest ih =>
    simp only [List.map_cons, List.mem_cons] at h
    push_neg at h
    have hk : p.1 ≠ k := fun hh => h.1 hh.symm
    simp [mapSet, hk, ih h.2]

/-! ## Lemmas about the pool registry -/

/-- `setPool` leaves the lock map untouched. -/
theorem setPool_locks (st : Pool.DMState) (p : Pool.Platform) (l : List Pool.Device) :
    (st.setPool p l).locks = st.locks := by
  cases p <;> rfl

/-- `setPool` leaves the lock file untouched. -/
theorem setPool_lockFile (st : Pool.DMState) (p : Pool.Platform) (l : List Pool.Device) :
    (st.setPool p l).lockFile = st.lockFile := by
  cases p <;> rfl

/-- Reading back the pool just written. -/
theorem setPool_pool_same (st : Pool.DMState) (p : Pool.Platform) (l : List Pool.Device) :
    (st.setPool p l).pool p = l := by
  cases p <;> rfl

/-- Updating the lock map does not change the pools. -/
theorem locks_update_pool (st : Pool.DMState) (x : List (String × Pool.Lock))
    (p : Pool.Platform) : Pool.DMState.pool { st with locks := x } p = st.pool p := by
  cases p <;> rfl

/-- Persisting does not change the pools. -/
theorem persistLocks_pool (st : Pool.DMState) (p : Pool.Platform) :
    (Pool.persistLocks st).pool p = st.pool p := by
  cases p <;> rfl

/-- Persisting does not change the lock map. -/
theorem persistLocks_locks (st : Pool.DMState) :
    (Pool.persistLocks st).locks = st.locks := rfl

/-- The device returned by an allocation attempt is the first free
device of the pool, marked busy. -/
theorem markFirstFree_snd (l : List Pool.Device) :
    (Pool.markFirstFree l).2 =
      (l.filter (fun d => !d.inUse)).head?.map (fun d => { d with inUse := true }) := by
  induction l with
  | nil => rfl
  | cons d ds ih =>
    cases h : d.inUse with
    | true => simpa [Pool.markFirstFree, h] using ih
    | false => simp [Pool.markFirstFree, h]

/-- A successful allocation attempt marks exactly one more device. -/
theorem markFirstFree_count (l : List Pool.Device) (d : Pool.Device)
    (h : (Pool.markFirstFree l).2 = some d) :
    Pool.countInUse (Pool.markFirstFree l).1 = Pool.countInUse l + 1 := by
  induction l with
  | nil => simp [Pool.markFirstFree] at h
  | cons x xs ih =>
    cases hx : x.inUse with
    | true =>
      rw [Pool.markFirstFree, hx] at h ⊢
      simp only [if_true]
      have := ih (by simpa using h)
      simp [Pool.countInUse, List.filter_cons, hx] at this ⊢
      omega
    | false =>
      rw [Pool.markFirstFree, hx]
      simp only [Bool.false_eq_true, if_false]
      simp [Pool.countInUse, List.filter_cons, hx]

/-- The result component of `allocateDevice` only depends on the pool
scan. -/
theorem allocateDevice_snd (st : Pool.DMState) (p : Pool.Platform) (t ts : String) :
    (Pool.allocateDevice st p t ts).2 = (Pool.markFirstFree (st.pool p)).2 := by
  unfold Pool.allocateDevice
  cases h : (Pool.markFirstFree (st.pool p)).2 <;> simp [h]

/-- A release that looks up no lock entry changes nothing. -/
theorem releaseDevice_no_lock (st : Pool.DMState) (t : String)
    (h : lookupL st.locks t = none) : Pool.releaseDevice st t = st := by
  unfold Pool.releaseDevice
  rw [h]

/-- When no device of the pool matches the key, the release scan finds
nothing and leaves the list as it was. -/
theorem releaseFirstMatch_not_found (key : Option String) (l : List Pool.Device)
    (h : ∀ d ∈ l, Pool.devMatches d key = false) :
    Pool.releaseFirstMatch key l = (l, false) := by
  induction l with
  | nil => rfl
  | cons d ds ih =>
    have hd := h d (by simp)
    have hds : ∀ x ∈ ds, Pool.devMatches x key = false := fun x hx => h x (by simp [hx])
    simp [Pool.releaseFirstMatch, hd, ih hds]

/-! ## Claim C1 -/

/-- C1: REFUTED (code bug) — `_isolateData` copies only the top level
of the base record (`...data`), so the records handed to two tests
initialized from the same base share one mutable `user` object (here:
both hold heap address 0).  The identity transform writes through that
shared reference: after the second initialization both tests (and the
base data itself) observe the same doubly-suffixed email
`user+c1+c2@example.com` and username `user1_c1_c2`, instead of the
distinct singly-suffixed identities the deep-copy claim requires. -/
theorem C1_shallow_copy_aliases_user :
    TestData.run1.2.user = some 0 ∧
    TestData.run2.2.user = some 0 ∧
    TestData.readUserEmail TestData.run2.1 TestData.run1.2 =
      TestData.readUserEmail TestData.run2.1 TestData.run2.2 ∧
    TestData.readUserEmail TestData.run2.1 TestData.run1.2 =
      some "user+c1+c2@example.com" ∧
    TestData.readUserName TestData.run2.1 TestData.run1.2 =
      TestData.readUserName TestData.run2.1 TestData.run2.2 ∧
    lookupL TestData.run2.1.heap 0 ≠ some TestData.baseUser := by
  decide

/-! ## Claim C7 -/

/-- C7 counterexample: on a fresh manager, `updateTestData` for a test
id that was never initialized does not return the unchanged empty
record — it returns the merged payload — and it does store a new record
under that test id. -/
theorem C7_counterexample :
    (TestData.updateTestData TestData.tdEmpty "t" TestData.c7NewData).2 ≠
      TestData.emptyRecord ∧
    lookupL (TestData.updateTestData TestData.tdEmpty "t" TestData.c7NewData).1.testData
      "t" ≠ none ∧
    (TestData.updateTestData TestData.tdEmpty "t" TestData.c7NewData).2 =
      TestData.c7NewData ∧
    lookupL (TestData.updateTestData TestData.tdEmpty "t" TestData.c7NewData).1.testData
      "t" = some TestData.c7NewData := by
  decide

/-- C7 amended: for a test id that was never initialized,
`updateTestData(testId, newData)` merges `newData` over the empty
record, stores the merge under `testId`, and returns it (a soft path —
no fault — but it does create a record rather than leaving the map
unchanged). -/
theorem C7_update_uninitialized_stores (st : TestData.TDMState) (t : String)
    (newData : TestData.RecordObj) (h : lookupL st.testData t = none) :
    (TestData.updateTestData st t newData).2 =
      TestData.spreadRecord TestData.emptyRecord newData ∧
    lookupL (TestData.updateTestData st t newData).1.testData t =
      some (TestData.spreadRecord TestData.emptyRecord newData) := by
  unfold TestData.updateTestData TestData.getTestData
  rw [h]
  exact ⟨rfl, lookupL_mapSet_self _ _ _⟩

/-- C7 witness: the amended statement evaluated on a fresh manager. -/
theorem C7_witness :
    (TestData.updateTestData TestData.tdEmpty "t" TestData.c7NewData).2 =
      TestData.spreadRecord TestData.emptyRecord TestData.c7NewData ∧
    lookupL (TestData.updateTestData TestData.tdEmpty "t" TestData.c7NewData).1.testData
      "t" = some (TestData.spreadRecord TestData.emptyRecord TestData.c7NewData) :=
  C7_update_uninitialized_stores TestData.tdEmpty "t" TestData.c7NewData rfl

/-! ## Claim C5 -/

/-- C5: `releaseDevice` is idempotent — releasing the same test id
twice leaves the registry (pools, lock map and lock file) exactly as
one release does — and a release for a test id with no lock entry is a
plain no-op success (the source warns and returns), not an error. -/
theorem C5_release_idempotent :
    (∀ (st : Pool.DMState) (t : String),
      Pool.releaseDevice (Pool.releaseDevice st t) t = Pool.releaseDevice st t) ∧
    (∀ (st : Pool.DMState) (t : String),
      lookupL st.locks t = none → Pool.releaseDevice st t = st) := by
  refine ⟨?_, fun st t h => releaseDevice_no_lock st t h⟩
  intro st t
  cases h : lookupL st.locks t with
  | none =>
    rw [releaseDevice_no_lock st t h]
    exact releaseDevice_no_lock st t h
  | some lk =>
    cases hf : (Pool.releaseFirstMatch lk.deviceId (st.pool lk.platform)).2 with
    | false =>
      have h1 : Pool.releaseDevice st t = st := by
        unfold Pool.releaseDevice
        rw [h]
        simp [hf]
      rw [h1]
      exact h1
    | true =>
      have h1 : Pool.releaseDevice st t =
          Pool.persistLocks
            { st.setPool lk.platform
                (Pool.releaseFirstMatch lk.deviceId (st.pool lk.platform)).1 with
              locks :=
                mapDelete
                  (st.setPool lk.platform
                    (Pool.releaseFirstMatch lk.deviceId (st.pool lk.platform)).1).locks
                  t } := by
        unfold Pool.releaseDevice
        rw [h]
        simp [hf]
      rw [h1]
      apply releaseDevice_no_lock
      simp [Pool.persistLocks, lookupL_mapDelete_self]

/-- C5 witness: releasing an unknown test id on an empty registry is a
no-op. -/
theorem C5_witness : Pool.releaseDevice Pool.dmEmpty "t" = Pool.dmEmpty :=
  C5_release_idempotent.2 Pool.dmEmpty "t" rfl

/-! ## Claim C10 -/

/-- C10: a lock entry whose device id matches nothing in the in-memory
catalog can never be cleared through `releaseDevice`: the call leaves
the whole registry untouched — the stale entry stays in the lock map
and nothing is persisted. -/
theorem C10_stale_lock_never_cleared (st : Pool.DMState) (t : String) (lk : Pool.Lock)
    (h : lookupL st.locks t = some lk)
    (hm : ∀ d ∈ st.pool lk.platform, Pool.devMatches d lk.deviceId = false) :
    Pool.releaseDevice st t = st ∧
    (Pool.releaseDevice st t).locks = st.locks ∧
    lookupL (Pool.releaseDevice st t).locks t = some lk ∧
    (Pool.releaseDevice st t).lockFile = st.lockFile := by
  have h1 : Pool.releaseDevice st t = st := by
    unfold Pool.releaseDevice
    rw [h]
    simp [releaseFirstMatch_not_found lk.deviceId (st.pool lk.platform) hm]
  exact ⟨h1, by rw [h1], by rw [h1, h], by rw [h1]⟩

/-- C10 witness: a registry whose only lock references the unknown
device id `Z` over a catalog holding only device `A`. -/
theorem C10_witness :
    Pool.releaseDevice Pool.staleSt "t9" = Pool.staleSt ∧
    lookupL (Pool.releaseDevice Pool.staleSt "t9").locks "t9" = some Pool.c4LockZ :=
  ⟨(C10_stale_lock_never_cleared Pool.staleSt "t9" Pool.c4LockZ (by decide)
      (by decide)).1,
   (C10_stale_lock_never_cleared Pool.staleSt "t9" Pool.c4LockZ (by decide)
      (by decide)).2.2.1⟩

/-! ## Claim C3 -/

/-- C3: `allocateDevice` always returns the first free device of the
platform in registration order (marked busy), absent when none is free
— and the concrete scenario on the android pool `[A, B]` runs exactly
as specified: `t1` gets `A`, `t2` gets `B`, `t3` is refused
(resource exhaustion, a `null` return), and after releasing `t1` the
retried `t3` gets `A`. -/
theorem C3_first_free_allocation_scenario :
    (∀ (st : Pool.DMState) (p : Pool.Platform) (t ts : String),
      (Pool.allocateDevice st p t ts).2 =
        ((st.pool p).filter (fun d => !d.inUse)).head?.map
          (fun d => { d with inUse := true })) ∧
    Pool.c3s1.2 = some Pool.devABusy ∧
    Pool.c3s2.2 = some Pool.devBBusy ∧
    Pool.c3s3.2 = none ∧
    Pool.c3s5.2 = some Pool.devABusy := by
  refine ⟨?_, by decide, by decide, by decide, by decide⟩
  intro st p t ts
  rw [allocateDevice_snd, markFirstFree_snd]

/-! ## Claim C2 -/

/-- C2 counterexample: on the android pool `[A, B]`, test `t1` has an
allocation holding device `A`, yet a second `allocateDevice` for `t1`
returns device `B` — not the recorded device — marks a second device
busy (both `A` and `B` are now in use), and overwrites the lock entry
so that it now references `B`. -/
theorem C2_counterexample :
    lookupL Pool.c3s1.1.locks "t1" =
      some { platform := Pool.Platform.android, deviceId := some "A",
             timestamp := "ts1" } ∧
    Pool.c2Second.2 = some Pool.devBBusy ∧
    Pool.c2Second.2 ≠ some Pool.devABusy ∧
    Pool.countInUse Pool.c2Second.1.android = 2 ∧
    Pool.c2Second.1.locks =
      [("t1", { platform := Pool.Platform.android, deviceId := some "B",
                timestamp := "ts2" })] := by
  decide

/-- C2 amended: `allocateDevice` performs no idempotent re-entry check:
even when an allocation for `testId` is already recorded, it allocates
the first free device anew, marks one more device in use, and
overwrites the existing lock entry in place (so no second entry is
created and the lock map does not grow). -/
theorem C2_allocate_ignores_existing_lock (st : Pool.DMState) (p : Pool.Platform)
    (t ts : String) (lk : Pool.Lock) (d : Pool.Device)
    (hlk : lookupL st.locks t = some lk)
    (hfree : ((st.pool p).filter (fun x => !x.inUse)).head? = some d) :
    (Pool.allocateDevice st p t ts).2 = some { d with inUse := true } ∧
    lookupL (Pool.allocateDevice st p t ts).1.locks t =
      some { platform := p, deviceId := Pool.deviceKey d, timestamp := ts } ∧
    (Pool.allocateDevice st p t ts).1.locks.length = st.locks.length ∧
    Pool.countInUse ((Pool.allocateDevice st p t ts).1.pool p) =
      Pool.countInUse (st.pool p) + 1 := by
  have hsnd : (Pool.markFirstFree (st.pool p)).2 = some { d with inUse := true } := by
    rw [markFirstFree_snd, hfree]
    rfl
  have hres : Pool.allocateDevice st p t ts =
      (Pool.persistLocks
        { st.setPool p (Pool.markFirstFree (st.pool p)).1 with
          locks :=
            mapSet (st.setPool p (Pool.markFirstFree (st.pool p)).1).locks t
              { platform := p, deviceId := Pool.deviceKey { d with inUse := true },
                timestamp := ts } },
        some { d with inUse := true }) := by
    unfold Pool.allocateDevice
    simp only [hsnd]
  rw [hres]
  refine ⟨rfl, ?_, ?_, ?_⟩
  · rw [persistLocks_locks]
    exact lookupL_mapSet_self _ _ _
  · rw [persistLocks_locks]
    have : (st.setPool p (Pool.markFirstFree (st.pool p)).1).locks = st.locks :=
      setPool_locks st p _
    rw [this]
    exact mapSet_length_of_lookup st.locks t lk _ hlk
  · rw [persistLocks_pool, locks_update_pool, setPool_pool_same]
    exact markFirstFree_count (st.pool p) { d with inUse := true } hsnd

/-- C2 witness: the amended statement evaluated on the `[A, B]` pool
with `t1` already holding device `A`. -/
theorem C2_witness :
    (Pool.allocateDevice Pool.c3s1.1 Pool.Platform.android "t1" "ts2").2 =
      some Pool.devBBusy ∧
    lookupL (Pool.allocateDevice Pool.c3s1.1 Pool.Platform.android "t1" "ts2").1.locks
      "t1" =
      some { platform := Pool.Platform.android, deviceId := Pool.deviceKey Pool.devB,
             timestamp := "ts2" } ∧
    (Pool.allocateDevice Pool.c3s1.1 Pool.Platform.android "t1" "ts2").1.locks.length =
      Pool.c3s1.1.locks.length ∧
    Pool.countInUse
        ((Pool.allocateDevice Pool.c3s1.1 Pool.Platform.android "t1" "ts2").1.pool
          Pool.Platform.android) =
      Pool.countInUse (Pool.c3s1.1.pool Pool.Platform.android) + 1 :=
  C2_allocate_ignores_existing_lock Pool.c3s1.1 Pool.Platform.android "t1" "ts2"
    { platform := Pool.Platform.android, deviceId := some "A", timestamp := "ts1" }
    Pool.devB (by decide) (by decide)

/-! ## Claim C6 -/

/-- C6: the broker checks its allocation cache before going to the
network — a cached test id is answered with the cached allocation and
zero requests — and two consecutive `requestDevice` calls for the same
fresh test id against a granting farm issue exactly one `POST /device`
(1 for the first call, 0 for the second), the second call returning
the very allocation the first one cached. -/
theorem C6_request_cached_once :
    (∀ (net : Broker.Network) (st : Broker.DFMState) (p : String)
        (caps : List (String × String)) (t ts : String) (a : Broker.Allocation),
      lookupL st.allocations t = some a →
      Broker.requestDevice net st p caps t ts = (st, some a, 0)) ∧
    (∀ (net : Broker.Network) (st : Broker.DFMState) (p : String)
        (caps : List (String × String)) (t ts1 ts2 : String) (dev : Broker.BDevice)
        (sid ep : String),
      lookupL st.allocations t = none →
      net p caps t = Broker.NetResult.ok dev sid ep →
      (Broker.requestDevice net st p caps t ts1).2.2 = 1 ∧
      (Broker.requestDevice net (Broker.requestDevice net st p caps t ts1).1 p caps t
          ts2).2.2 = 0 ∧
      (Broker.requestDevice net (Broker.requestDevice net st p caps t ts1).1 p caps t
          ts2).2.1 = (Broker.requestDevice net st p caps t ts1).2.1 ∧
      (Broker.requestDevice net st p caps t ts1).2.1 =
        some { device := dev, sessionId := sid, endpoint := ep, allocated := true,
               timestamp := ts1 }) := by
  constructor
  · intro net st p caps t ts a h
    unfold Broker.requestDevice
    rw [h]
  · intro net st p caps t ts1 ts2 dev sid ep hmiss hnet
    have h1 : Broker.requestDevice net st p caps t ts1 =
        ({ allocations := mapSet st.allocations t
            { device := dev, sessionId := sid, endpoint := ep, allocated := true,
              timestamp := ts1 } },
          some { device := dev, sessionId := sid, endpoint := ep, allocated := true,
                 timestamp := ts1 }, 1) := by
      unfold Broker.requestDevice
      rw [hmiss, hnet]
    have h2 : Broker.requestDevice net (Broker.requestDevice net st p caps t ts1).1 p
        caps t ts2 =
        ((Broker.requestDevice net st p caps t ts1).1,
          some { device := dev, sessionId := sid, endpoint := ep, allocated := true,
                 timestamp := ts1 }, 0) := by
      rw [h1]
      unfold Broker.requestDevice
      rw [lookupL_mapSet_self]
    rw [h1] at h2 ⊢
    rw [h2]
    exact ⟨rfl, rfl, rfl, rfl⟩

/-- C6 witness: a fresh broker against the always-granting farm. -/
theorem C6_witness :
    (Broker.requestDevice Broker.okNet Broker.dfmEmpty "android" [] "t" "ts1").2.2 =
      1 ∧
    (Broker.requestDevice Broker.okNet
        (Broker.requestDevice Broker.okNet Broker.dfmEmpty "android" [] "t" "ts1").1
        "android" [] "t" "ts2").2.2 = 0 ∧
    (Broker.requestDevice Broker.okNet
        (Broker.requestDevice Broker.okNet Broker.dfmEmpty "android" [] "t" "ts1").1
        "android" [] "t" "ts2").2.1 =
      (Broker.requestDevice Broker.okNet Broker.dfmEmpty "android" [] "t" "ts1").2.1 ∧
    (Broker.requestDevice Broker.okNet Broker.dfmEmpty "android" [] "t" "ts1").2.1 =
      some { device := Broker.bDev, sessionId := "sess-1",
             endpoint := "http://localhost:4723", allocated := true,
             timestamp := "ts1" } :=
  C6_request_cached_once.2 Broker.okNet Broker.dfmEmpty "android" [] "t" "ts1" "ts2"
    Broker.bDev "sess-1" "http://localhost:4723" rfl rfl

/-! ## Claim C9 -/

/-- C9 counterexample: a cached allocation whose endpoint carries no
protocol separator (as in `localhost:4723`) makes `getRemoteOptions`
throw — destructuring the single-element split leaves `hostname`
undefined and `hostname.split` raises a TypeError — instead of applying
the defaults. -/
theorem C9_counterexample :
    lookupL Broker.noSepState.allocations "t1" = some Broker.noSepAllocation ∧
    Broker.getRemoteOptions Broker.noSepState "t1" = Broker.GROResult.errTypeError := by
  decide

/-- C9 amended: endpoint parsing splits on the protocol separator and
then on the host-port separator and applies the defaults (`http`,
`localhost`, `4723`) to each component that comes out falsy — but only
when the protocol separator is present; an endpoint without `://`
makes the derivation throw a TypeError rather than fall back to the
defaults. -/
theorem C9_endpoint_parsing :
    (∀ (st : Broker.DFMState) (t : String) (a : Broker.Allocation),
      lookupL st.allocations t = some a →
      (jsSplit a.endpoint "://").length ≤ 1 →
      Broker.getRemoteOptions st t = Broker.GROResult.errTypeError) ∧
    Broker.getRemoteOptions Broker.endpointsState "tf" =
      Broker.GROResult.ok
        { protocol := "myproto", hostname := "myhost", port := some 8080,
          path := "/wd/hub",
          capabilities := [("platformName", "Android"), ("appium:sessionId", "s1")] } ∧
    Broker.getRemoteOptions Broker.endpointsState "tn" =
      Broker.GROResult.ok
        { protocol := "http", hostname := "myhost", port := some 4723,
          path := "/wd/hub",
          capabilities := [("platformName", "Android"), ("appium:sessionId", "s1")] } ∧
    Broker.getRemoteOptions Broker.endpointsState "tb" =
      Broker.GROResult.ok
        { protocol := "http", hostname := "localhost", port := some 4723,
          path := "/wd/hub",
          capabilities := [("platformName", "Android"), ("appium:sessionId", "s1")] } := by
  refine ⟨?_, by decide, by decide, by decide⟩
  intro st t a h hlen
  have h2 : (jsSplit a.endpoint "://")[1]? = none := List.getElem?_eq_none hlen
  unfold Broker.getRemoteOptions
  rw [h]
  simp only [h2]

/-- C9 witness: the TypeError branch of the amended statement evaluated
on a cached bare-IP endpoint. -/
theorem C9_witness :
    Broker.getRemoteOptions Broker.bareIpState "t2" = Broker.GROResult.errTypeError :=
  C9_endpoint_parsing.1 Broker.bareIpState "t2" Broker.bareIpAllocation rfl (by decide)

/-! ## Claim C8 -/

/-- C8: `loadTestData` degrades instead of raising — with nothing
cached, a missing or unparseable source yields the empty object when a
category is requested and the empty array otherwise, with the cache
left untouched — and an out-of-range index over an existing non-empty
category list falls back to the first record of that list. -/
theorem C8_load_degrades_and_falls_back :
    (∀ (fsys : Fixture.FileSystem) (st : Fixture.FState) (ty : String)
        (category : Option String) (index : Nat),
      lookupL st.dataCache (Fixture.cacheKey ty category) = none →
      fsys ty = none →
      Fixture.loadTestData fsys st ty category index =
        (st,
          some
            (if Fixture.catTruthy category then Fixture.JsonV.obj []
             else Fixture.JsonV.arr []))) ∧
    (∀ (fsys : Fixture.FileSystem) (st : Fixture.FState) (ty c : String) (index : Nat)
        (file : List (String × Fixture.JsonV)) (data : Fixture.JsonV)
        (l : List Fixture.JsonV) (r : Fixture.JsonV),
      c.isEmpty = false →
      lookupL st.dataCache (Fixture.cacheKey ty (some c)) = none →
      fsys ty = some file →
      lookupL file ty = some data →
      Fixture.jsFalsy data = false →
      Fixture.jsGetField data c = some (Fixture.JsonV.arr l) →
      l.head? = some r →
      Fixture.jsFalsy r = false →
      l.length ≤ index →
      (Fixture.loadTestData fsys st ty (some c) index).2 = some r) := by
  constructor
  · intro fsys st ty category index hcache hfs
    unfold Fixture.loadTestData
    simp only [hcache, hfs]
  · intro fsys st ty c index file data l r hc hcache hfs hfile hdata hcat hhead hr hlen
    cases l with
    | nil => simp at hhead
    | cons x xs =>
      simp only [List.head?_cons, Option.some.injEq] at hhead
      subst hhead
      simp only [List.length_cons] at hlen
      have hdata1 : Fixture.jsOr (lookupL file ty) (Fixture.JsonV.obj []) = data := by
        rw [hfile]
        simp [Fixture.jsOr, hdata]
      have hct : Fixture.catTruthy (some c) = true := by
        simp [Fixture.catTruthy, hc]
      have hgt : Fixture.jsLenGt (Fixture.JsonV.arr (x :: xs)) index = false := by
        simp only [Fixture.jsLenGt, Fixture.jsLen, List.length_cons,
          decide_eq_false_iff_not, Nat.not_lt]
        exact hlen
      have hserve : Fixture.serveData data (some c) index = some x := by
        unfold Fixture.serveData
        rw [hct]
        simp only [if_true, Option.getD_some, hcat]
        have hcd : Fixture.jsOr (some (Fixture.JsonV.arr (x :: xs)))
            (Fixture.JsonV.arr []) = Fixture.JsonV.arr (x :: xs) := by
          simp [Fixture.jsOr, Fixture.jsFalsy]
        rw [hcd, hgt]
        simp [Fixture.jsIndex, Fixture.jsOr, hr]
      unfold Fixture.loadTestData
      simp only [hcache, hfs, hdata1, hserve]

/-- C8 witness: the two degradation paths evaluated on the concrete
`users` source — an unknown data type yields the empty array, and the
out-of-range index 5 over the two-record `valid` category yields the
first record. -/
theorem C8_witness :
    Fixture.loadTestData Fixture.usersFS Fixture.fs0 "nonexistent_type" none 0 =
      (Fixture.fs0,
        some
          (if Fixture.catTruthy none then Fixture.JsonV.obj []
           else Fixture.JsonV.arr [])) ∧
    (Fixture.loadTestData Fixture.usersFS Fixture.fs0 "users" (some "valid") 5).2 =
      some Fixture.rec1 :=
  ⟨C8_load_degrades_and_falls_back.1 Fixture.usersFS Fixture.fs0 "nonexistent_type"
      none 0 rfl rfl,
   C8_load_degrades_and_falls_back.2 Fixture.usersFS Fixture.fs0 "users" "valid" 5
      [("users", Fixture.JsonV.obj [("valid", Fixture.JsonV.arr [Fixture.rec1, Fixture.rec2])])]
      (Fixture.JsonV.obj [("valid", Fixture.JsonV.arr [Fixture.rec1, Fixture.rec2])])
      [Fixture.rec1, Fixture.rec2] Fixture.rec1
      rfl rfl rfl rfl rfl rfl rfl rfl (by decide)⟩

/-! ## Claim C4: lemmas about lock restoration -/

/-- Replaying persisted entries from fixed state fields is a plain
fold: `initializeDevicePool` over a present lock file. -/
theorem initializeDevicePool_foldl (a0 i0 ad iod : List Pool.Device)
    (l0 entries : List (String × Pool.Lock)) :
    Pool.initializeDevicePool ⟨a0, i0, l0, some entries⟩ ad iod =
      entries.foldl Pool.restoreOne
        ⟨ad.map (fun d => { d with inUse := false }),
         iod.map (fun d => { d with inUse := false }), [], some entries⟩ := rfl

/-- One restore step stores the persisted entry in the lock map. -/
theorem restoreOne_locks (s : Pool.DMState) (e : String × Pool.Lock) :
    (Pool.restoreOne s e).locks = mapSet s.locks e.1 e.2 := by
  unfold Pool.restoreOne
  rw [setPool_locks]

/-- The lock map produced by the restore fold is the fold of the map
writes alone. -/
theorem foldl_restoreOne_locks (entries : List (String × Pool.Lock)) :
    ∀ s : Pool.DMState,
      (entries.foldl Pool.restoreOne s).locks =
        entries.foldl (fun acc e => mapSet acc e.1 e.2) s.locks := by
  induction entries with
  | nil => intro s; rfl
  | cons e rest ih =>
    intro s
    rw [List.foldl_cons, List.foldl_cons, ih, restoreOne_locks]

/-- Folding map writes with pairwise-distinct fresh keys appends all
the bindings. -/
theorem foldl_mapSet_nodup {κ α : Type} [DecidableEq κ]
    (entries : List (κ × α)) :
    ∀ acc : List (κ × α),
      (∀ k ∈ acc.map Prod.fst, k ∉ entries.map Prod.fst) →
      (entries.map Prod.fst).Nodup →
      entries.foldl (fun a e => mapSet a e.1 e.2) acc = acc ++ entries := by
  induction entries with
  | nil => intro acc _ _; simp
  | cons e rest ih =>
    intro acc hdisj hnodup
    obtain ⟨k, v⟩ := e
    rw [List.foldl_cons]
    have hk : k ∉ acc.map Prod.fst := fun hmem => hdisj k hmem (by simp)
    rw [mapSet_eq_append_of_not_mem acc k v hk]
    rw [List.map_cons, List.nodup_cons] at hnodup
    have hdisj2 : ∀ k2 ∈ (acc ++ [(k, v)]).map Prod.fst, k2 ∉ rest.map Prod.fst := by
      intro k2 hk2
      rw [List.map_append] at hk2
      rcases List.mem_append.mp hk2 with h1 | h2
      · intro hin
        exact hdisj k2 h1 (by simp [hin])
      · simp only [List.map_cons, List.map_nil, List.mem_singleton] at h2
        subst h2
        exact hnodup.1
    rw [ih (acc ++ [(k, v)]) hdisj2 hnodup.2, List.append_assoc]
    rfl

/-- Marking the first match for some key never loses the existence of a
device matching another key. -/
theorem restoreFirstMatch_exists_of (key k2 : Option String) (l : List Pool.Device)
    (h : ∃ d ∈ l, Pool.devMatches d key = true) :
    ∃ d ∈ Pool.restoreFirstMatch k2 l, Pool.devMatches d key = true := by
  induction l with
  | nil => simp at h
  | cons x xs ih =>
    obtain ⟨d, hd, hmatch⟩ := h
    rw [Pool.restoreFirstMatch]
    by_cases hx : Pool.devMatches x k2 = true
    · rw [if_pos hx]
      rcases List.mem_cons.mp hd with heq | htl
      · subst heq
        exact ⟨{ d with inUse := true }, by simp, hmatch⟩
      · exact ⟨d, by simp [htl], hmatch⟩
    · rw [if_neg hx]
      rcases List.mem_cons.mp hd with heq | htl
      · subst heq
        exact ⟨d, by simp, hmatch⟩
      · obtain ⟨d2, hd2, hm2⟩ := ih ⟨d, htl, hmatch⟩
        exact ⟨d2, by simp [hd2], hm2⟩

/-- Marking the first match for some key never unmarks a device: an
already marked match for another key survives. -/
theorem restoreFirstMatch_marked_of (key k2 : Option String) (l : List Pool.Device)
    (h : ∃ d ∈ l, Pool.devMatches d key = true ∧ d.inUse = true) :
    ∃ d ∈ Pool.restoreFirstMatch k2 l,
      Pool.devMatches d key = true ∧ d.inUse = true := by
  induction l with
  | nil => simp at h
  | cons x xs ih =>
    obtain ⟨d, hd, hmatch, huse⟩ := h
    rw [Pool.restoreFirstMatch]
    by_cases hx : Pool.devMatches x k2 = true
    · rw [if_pos hx]
      rcases List.mem_cons.mp hd with heq | htl
      · subst heq
        exact ⟨{ d with inUse := true }, by simp, hmatch, rfl⟩
      · exact ⟨d, by simp [htl], hmatch, huse⟩
    · rw [if_neg hx]
      rcases List.mem_cons.mp hd with heq | htl
      · subst heq
        exact ⟨d, by simp, hmatch, huse⟩
      · obtain ⟨d2, hd2, hm2, hu2⟩ := ih ⟨d, htl, hmatch, huse⟩
        exact ⟨d2, by simp [hd2], hm2, hu2⟩

/-- If some device matches the key, the restore scan leaves a matching
device marked in use. -/
theorem restoreFirstMatch_marks (key : Option String) (l : List Pool.Device)
    (h : ∃ d ∈ l, Pool.devMatches d key = true) :
    ∃ d ∈ Pool.restoreFirstMatch key l,
      Pool.devMatches d key = true ∧ d.inUse = true := by
  induction l with
  | nil => simp at h
  | cons x xs ih =>
    rw [Pool.restoreFirstMatch]
    by_cases hx : Pool.devMatches x key = true
    · rw [if_pos hx]
      exact ⟨{ x with inUse := true }, by simp, hx, rfl⟩
    · rw [if_neg hx]
      obtain ⟨d, hd, hmatch⟩ := h
      rcases List.mem_cons.mp hd with heq | htl
      · subst heq
        exact absurd hmatch hx
      · obtain ⟨d2, hd2, hm2, hu2⟩ := ih ⟨d, htl, hmatch⟩
        exact ⟨d2, by simp [hd2], hm2, hu2⟩

/-- The pool a restore step produces for each platform. -/
theorem restoreOne_pool (s : Pool.DMState) (e : String × Pool.Lock)
    (p : Pool.Platform) :
    (Pool.restoreOne s e).pool p =
      if e.2.platform = p then Pool.restoreFirstMatch e.2.deviceId (s.pool p)
      else s.pool p := by
  unfold Pool.restoreOne
  cases hp : e.2.platform <;> cases p <;>
    simp [Pool.DMState.setPool, Pool.DMState.pool, hp]

/-- A restore step preserves the existence of a match. -/
theorem restoreOne_exists (s : Pool.DMState) (e : String × Pool.Lock)
    (p : Pool.Platform) (key : Option String)
    (h : ∃ d ∈ s.pool p, Pool.devMatches d key = true) :
    ∃ d ∈ (Pool.restoreOne s e).pool p, Pool.devMatches d key = true := by
  rw [restoreOne_pool]
  by_cases hp : e.2.platform = p
  · rw [if_pos hp]
    exact restoreFirstMatch_exists_of key e.2.deviceId _ h
  · rw [if_neg hp]
    exact h

/-- A restore step preserves a marked match. -/
theorem restoreOne_marked (s : Pool.DMState) (e : String × Pool.Lock)
    (p : Pool.Platform) (key : Option String)
    (h : ∃ d ∈ s.pool p, Pool.devMatches d key = true ∧ d.inUse = true) :
    ∃ d ∈ (Pool.restoreOne s e).pool p,
      Pool.devMatches d key = true ∧ d.inUse = true := by
  rw [restoreOne_pool]
  by_cases hp : e.2.platform = p
  · rw [if_pos hp]
    exact restoreFirstMatch_marked_of key e.2.deviceId _ h
  · rw [if_neg hp]
    exact h

/-- The whole restore fold preserves a marked match. -/
theorem foldl_restoreOne_marked (entries : List (String × Pool.Lock)) :
    ∀ (s : Pool.DMState) (p : Pool.Platform) (key : Option String),
      (∃ d ∈ s.pool p, Pool.devMatches d key = true ∧ d.inUse = true) →
      ∃ d ∈ (entries.foldl Pool.restoreOne s).pool p,
        Pool.devMatches d key = true ∧ d.inUse = true := by
  induction entries with
  | nil => intro s p key h; exact h
  | cons e rest ih =>
    intro s p key h
    rw [List.foldl_cons]
    exact ih (Pool.restoreOne s e) p key (restoreOne_marked s e p key h)

/-- Every persisted entry whose device exists in the state the fold
starts from ends with a matching device marked in use. -/
theorem foldl_restoreOne_marks (entries : List (String × Pool.Lock)) :
    ∀ (s : Pool.DMState), ∀ e ∈ entries,
      (∃ d ∈ s.pool e.2.platform, Pool.devMatches d e.2.deviceId = true) →
      ∃ d ∈ (entries.foldl Pool.restoreOne s).pool e.2.platform,
        Pool.devMatches d e.2.deviceId = true ∧ d.inUse = true := by
  induction entries with
  | nil => intro s e he; cases he
  | cons hd rest ih =>
    intro s e he hex
    rw [List.foldl_cons]
    rcases List.mem_cons.mp he with heq | htl
    · subst heq
      apply foldl_restoreOne_marked rest (Pool.restoreOne s e) e.2.platform e.2.deviceId
      rw [restoreOne_pool, if_pos rfl]
      exact restoreFirstMatch_marks e.2.deviceId _ hex
    · exact ih (Pool.restoreOne s hd) e htl (restoreOne_exists s hd _ _ hex)

/-- Resetting the in-use flags of a catalog keeps every match. -/
theorem map_reset_exists (l : List Pool.Device) (key : Option String)
    (h : ∃ d ∈ l, Pool.devMatches d key = true) :
    ∃ d ∈ l.map (fun d => { d with inUse := false }),
      Pool.devMatches d key = true := by
  obtain ⟨d, hd, hm⟩ := h
  exact ⟨{ d with inUse := false }, List.mem_map.mpr ⟨d, hd, rfl⟩, hm⟩

/-! ## Claim C4 -/

/-- C4 counterexample: initializing the pool with catalog `[A]` over a
persisted lock table holding an entry for device `A` and an entry for
the unknown device `Z` keeps the unknown-device entry in the lock map
— it is not dropped as the claim states. -/
theorem C4_counterexample :
    lookupL Pool.c4Post.locks "t2" = some Pool.c4LockZ ∧
    lookupL Pool.c4Post.locks "t2" ≠ none := by
  decide

/-- C4 amended: after `initializeDevicePool` over a persisted lock
table (with pairwise distinct test ids, as a parsed JSON object
guarantees), the lock map holds exactly the persisted entries — the
known-device ones and the unknown-device ones alike, none dropped —
and every entry whose device id matches a device of the new catalog
leaves such a device marked in use and excluded from the available
snapshot. -/
theorem C4_restore_keeps_all_entries (st : Pool.DMState) (ad iod : List Pool.Device)
    (entries : List (String × Pool.Lock))
    (hfile : st.lockFile = some entries)
    (hnodup : (entries.map Prod.fst).Nodup) :
    (Pool.initializeDevicePool st ad iod).locks = entries ∧
    ∀ e ∈ entries,
      (∃ d ∈ Pool.catalogOf ad iod e.2.platform,
        Pool.devMatches d e.2.deviceId = true) →
      ∃ d ∈ (Pool.initializeDevicePool st ad iod).pool e.2.platform,
        Pool.devMatches d e.2.deviceId = true ∧ d.inUse = true ∧
        d ∉ Pool.availOf (Pool.initializeDevicePool st ad iod) e.2.platform := by
  obtain ⟨a0, i0, l0, f0⟩ := st
  have hf : f0 = some entries := hfile
  subst hf
  rw [initializeDevicePool_foldl]
  constructor
  · rw [foldl_restoreOne_locks]
    exact foldl_mapSet_nodup entries [] (by intro k hk; cases hk) hnodup
  · intro e he hex
    have hstart :
        ∃ d ∈ (⟨ad.map (fun d => { d with inUse := false }),
            iod.map (fun d => { d with inUse := false }), [],
            some entries⟩ : Pool.DMState).pool e.2.platform,
          Pool.devMatches d e.2.deviceId = true := by
      cases hp : e.2.platform with
      | android =>
        rw [hp] at hex
        exact map_reset_exists ad e.2.deviceId hex
      | ios =>
        rw [hp] at hex
        exact map_reset_exists iod e.2.deviceId hex
    obtain ⟨d, hd, hm, hu⟩ := foldl_restoreOne_marks entries _ e he hstart
    refine ⟨d, hd, hm, hu, ?_⟩
    intro hmem
    have := (List.mem_filter.mp hmem).2
    rw [hu] at this
    cases this

/-- C4 witness: the amended statement evaluated on catalog `[A]` with a
single persisted entry for device `A`: the entry is kept and device
`A` comes out marked in use and absent from the available list. -/
theorem C4_witness :
    (Pool.initializeDevicePool Pool.c4WPre [Pool.devA] []).locks =
      [("t1", Pool.c4LockA)] ∧
    (∃ d ∈ (Pool.initializeDevicePool Pool.c4WPre [Pool.devA] []).pool
        Pool.Platform.android,
      Pool.devMatches d (some "A") = true ∧ d.inUse = true ∧
      d ∉ Pool.availOf (Pool.initializeDevicePool Pool.c4WPre [Pool.devA] [])
        Pool.Platform.android) :=
  ⟨(C4_restore_keeps_all_entries Pool.c4WPre [Pool.devA] [] [("t1", Pool.c4LockA)]
      rfl (by decide)).1,
   (C4_restore_keeps_all_entries Pool.c4WPre [Pool.devA] [] [("t1", Pool.c4LockA)]
      rfl (by decide)).2 ("t1", Pool.c4LockA) (by simp)
     ⟨Pool.devA, by decide, by decide⟩⟩
